import Mathlib

/-!
Verification of the state-synchronization core of the `hacs_amplipi`
Home Assistant integration (`custom_components/amplipi/media_player.py`).

The Python module is shallowly embedded: each media-player entity class
becomes a structure holding its cached fields, and each method that the
claims touch becomes a pure function.  Python in-place mutation is modelled
by threading the entity record; a method that can end in an unhandled
Python exception returns the partially-mutated record together with a
`Bool` flag (`true` = an exception propagated out of the method), or an
`Except PyErr` result, so every control path of the source is represented.
A failed HTTP status fetch (caught by the `try/except` blocks of the
source) is modelled by passing `none` as the fetched snapshot.
-/

set_option maxHeartbeats 1000000
set_option autoImplicit false

deriving instance DecidableEq for Except

namespace AmpliPi

/-- Kinds of Python runtime errors that the embedded methods can raise. -/
inductive PyErr
  | indexError
  | valueError
  | typeError
  | attributeError
  | exception (msg : String)
deriving DecidableEq, Repr

/-! ### Characters and substring containment

Python `pat in s` (substring containment) is embedded as an executable
scan over the character lists of the two strings. -/

/-- `charsPrefixOf p l` is `true` iff the character list `p` is a prefix of `l`. -/
def charsPrefixOf : List Char → List Char → Bool
  | [], _ => true
  | _ :: _, [] => false
  | a :: p, b :: l => a == b && charsPrefixOf p l

/-- `charsContain p l` is `true` iff `p` occurs as a contiguous run inside `l`. -/
def charsContain (p : List Char) : List Char → Bool
  | [] => charsPrefixOf p []
  | c :: l => charsPrefixOf p (c :: l) || charsContain p l

/-- Embedding of the Python substring test `pat in s`. -/
def strContains (s pat : String) : Bool :=
  charsContain pat.data s.data

/-! ### Device data model (`pyamplipi.models`), as consumed by the module -/

/-- The optional playback-info record of a source (`Source.info`). -/
structure SourceInfo where
  state : Option String
  artist : Option String
  album : Option String
  track : Option String
  name : Option String
  station : Option String
  img_url : Option String
  supported_cmds : List String
deriving DecidableEq, Repr

/-- A device source: one of the four hardware inputs. -/
structure Source where
  id : Int
  name : String
  input : Option String
  info : Option SourceInfo
deriving DecidableEq, Repr

/-- A device zone. -/
structure Zone where
  id : Int
  name : String
  source_id : Option Int
  vol_f : Option Rat
  mute : Option Bool
  disabled : Bool
deriving DecidableEq, Repr

/-- A device group of zones. -/
structure Group where
  id : Int
  name : String
  source_id : Option Int
  zones : List Int
  vol_f : Option Rat
  mute : Option Bool
deriving DecidableEq, Repr

/-- A device stream record. -/
structure Stream where
  id : Int
  name : String
  type : Option String
deriving DecidableEq, Repr

/-- One atomic status snapshot returned by `AmpliPi.get_status()`. -/
structure Status where
  sources : List Source
  zones : List Zone
  groups : List Group
  streams : List Stream
deriving DecidableEq, Repr

/-! ### Module-level helpers -/

/-- The renaming applied to a single stream by `process_stream_names`:
if the name does not already contain the marker `"AmpliPi Stream"`, prepend
`"AmpliPi Stream {id}: "`; otherwise leave the record unchanged. -/
def normalize_stream (s : Stream) : Stream :=
  if strContains s.name "AmpliPi Stream" then s
  else { s with name := "AmpliPi Stream " ++ toString s.id ++ ": " ++ s.name }

/-- `process_stream_names` (media_player.py lines 73-80): renames every
stream in the list in place and returns the list. -/
def process_stream_names (streams : List Stream) : List Stream :=
  streams.map normalize_stream

/-- `extract_source_id_from_name` (lines 82-83):
`int(''.join(re.findall(r'\d', source))[0]) - 1`.  Joining all digit
characters and indexing `[0]` raises `IndexError` when the label has no
digit; otherwise the first digit character is parsed and decremented. -/
def extract_source_id_from_name (source : String) : Except PyErr Int :=
  match source.data.filter Char.isDigit with
  | [] => .error .indexError
  | c :: _ => .ok ((c.toNat - 48 : Int) - 1)

/-- Modelled from the spec: the well-formedness check `validators.url` of
the external `validators` library (a third-party dependency whose code is
not part of this repository).  The spec only requires a "well-formed URL"
predicate; it is modelled as an `http://` or `https://` scheme followed by
a nonempty remainder, with no space anywhere. -/
def validators_url (s : String) : Bool :=
  let d := s.data
  let rest : Option (List Char) :=
    if d.take 7 = "http://".data then some (d.drop 7)
    else if d.take 8 = "https://".data then some (d.drop 8)
    else none
  match rest with
  | none => false
  | some r => !r.isEmpty && !(d.contains ' ')

/-- Module-level `build_url` (lines 86-100): pass an already valid URL
through, otherwise try `f'{api_base_path}/{img_url}'`, otherwise `None`. -/
def build_url (api_base_path : String) (img_url : Option String) : Option String :=
  match img_url with
  | none => none
  | some img =>
    if validators_url img then some img
    else
      let new_url := api_base_path ++ "/" ++ img
      if validators_url new_url then some new_url
      else none

/-! ### The derived Home Assistant playback state -/

/-- The four Home Assistant states the module can report
(`STATE_UNKNOWN`, `STATE_IDLE`, `STATE_PLAYING`, `STATE_PAUSED`). -/
inductive PlayerState
  | unknown
  | idle
  | playing
  | paused
deriving DecidableEq, Repr

/-! ### `AmpliPiSource`: the source-entity adapter (lines 175-586) -/

/-- The cached fields of an `AmpliPiSource` entity. -/
structure SourceEntity where
  _id : Int
  _name : String
  _source : Source
  _streams : List Stream
  _zones : List Zone
  _groups : List Group
  _current_stream : Option Stream
  _last_update_successful : Bool
  _image_base_path : String
  _attr_media_album_artist : Option String
  _attr_media_album_name : Option String
  _attr_media_title : Option String
  _attr_media_track : Option String
  _attr_app_name : Option String
  _attr_media_image_url : Option String
  _attr_media_channel : Option String
deriving DecidableEq, Repr

namespace AmpliPiSource

/-- The `state` property (lines 498-522).  The Python guard
`self._source is None` can never fire: `_source` is assigned a `Source`
both in `__init__` and in `sync_state` and never cleared, so it is not
represented as optional here.  The membership tests
`self._source.info.state in ('paused')` etc. are SUBSTRING tests:
`('paused')` is a parenthesized string, not a tuple, so the test holds
whenever the state value occurs inside "paused" (for example "use" or the
empty string), and likewise for "playing" and "stopped".  The source also
repeats the "stopped" branch twice (lines 513-520); both give idle. -/
def state (e : SourceEntity) : PlayerState :=
  if e._last_update_successful = false then .unknown
  else match e._source.info with
    | none => .idle
    | some info =>
      match info.state with
      | none => .idle
      | some s =>
        if strContains "paused" s then .paused
        else if strContains "playing" s then .playing
        else if strContains "stopped" s then .idle
        else .idle

/-- `sync_state` (lines 456-496), mutation by mutation.  The second
component is `true` when the method ends in an unhandled exception
(`'stream=' in None` raising `TypeError`, or `int()` on a non-numeric
input part raising `ValueError`); the first component is the entity as
mutated up to that point. -/
def sync_state (e : SourceEntity) (state : Source) (streams : List Stream)
    (zones : List Zone) (groups : List Group) : SourceEntity × Bool :=
  let e1 : SourceEntity :=
    { e with _source := state,
             _streams := process_stream_names streams,
             _current_stream := none }
  match state.input with
  | none => (e1, true)
  | some inp =>
    let cur : Except PyErr SourceEntity :=
      if strContains inp "stream=" && !strContains inp "stream=local" then
        match ((inp.splitOn "=").getD 1 "").toInt? with
        | none => .error .valueError
        | some stream_id =>
          .ok { e1 with _current_stream := e1._streams.find? (fun z => z.id == stream_id) }
      else .ok e1
    match cur with
    | .error _ => (e1, true)
    | .ok e2 =>
      let e3 : SourceEntity :=
        { e2 with _zones := zones, _groups := groups,
                  _last_update_successful := true, _name := state.name }
      match e3._source.info with
      | some info =>
        let track_name := match info.track with | none => info.name | some t => some t
        ({ e3 with
            _attr_media_album_artist := info.artist,
            _attr_media_album_name := info.album,
            _attr_media_title := track_name,
            _attr_media_track := info.track,
            _attr_app_name := e3._current_stream.bind (·.type),
            _attr_media_image_url := build_url e3._image_base_path info.img_url,
            _attr_media_channel := info.station }, false)
      | none =>
        ({ e3 with
            _attr_media_album_artist := none, _attr_media_album_name := none,
            _attr_media_title := none, _attr_media_track := none,
            _attr_app_name := none, _attr_media_image_url := none,
            _attr_media_channel := none }, false)

/-- `async_update` (lines 434-454).  `fetch = none` models
`get_status()` raising; the `except` clause then only clears
`_last_update_successful`.  A snapshot without this source's id likewise
only clears the flag. -/
def async_update (e : SourceEntity) (fetch : Option Status) : SourceEntity × Bool :=
  match fetch with
  | none => ({ e with _last_update_successful := false }, false)
  | some st =>
    match st.sources.find? (fun z => z.id == e._source.id) with
    | none => ({ e with _last_update_successful := false }, false)
    | some source =>
      let groups := st.groups.filter (fun z => z.source_id == some e._source.id)
      let zones := st.zones.filter (fun z => z.source_id == some e._source.id)
      sync_state e source st.streams zones groups

/-- `process_stream_id` (lines 316-325): join every digit of the label;
indexing `[0]` raises `IndexError` on a digitless label; a first digit of
`1` keeps four digits, of `9` keeps three, anything else logs an error and
implicitly returns `None`. -/
def process_stream_id (stream : String) : Except PyErr (Option String) :=
  match stream.data.filter Char.isDigit with
  | [] => .error .indexError
  | c :: rest =>
    if c = '1' then .ok (some (String.mk ((c :: rest).take 4)))
    else if c = '9' then .ok (some (String.mk ((c :: rest).take 3)))
    else .ok none

/-- The `next(filter(...), None)` scan of `async_select_source` (line 338):
for each cached stream, Python evaluates `process_stream_id(z.name)` and
then `process_stream_id(source)`, so either call can raise out of the
scan; `None == None` compares equal in Python, mirrored by `Option.beq`. -/
def find_matching_stream (source : String) : List Stream → Except PyErr (Option Stream)
  | [] => .ok none
  | z :: rest =>
    match process_stream_id z.name with
    | .error er => .error er
    | .ok pz =>
      match process_stream_id source with
      | .error er => .error er
      | .ok ps =>
        if pz == ps then .ok (some z) else find_matching_stream source rest

/-- The action `async_select_source` (lines 327-346) decides on: update the
device source to local input, to no input, to a stream input, or do
nothing (the logged-warning no-match branch). -/
inductive SelectOutcome
  | setLocal
  | setNoneInput
  | setStream (id : Int)
  | noMatch
deriving DecidableEq, Repr

/-- `async_select_source` (lines 327-346).  The guard
`self._source is not None` is always true (see `state`). -/
def async_select_source (e : SourceEntity) (source : String) :
    Except PyErr SelectOutcome :=
  if e._source.name == source then .ok .setLocal
  else if source == "None" then .ok .setNoneInput
  else
    match find_matching_stream source e._streams with
    | .error er => .error er
    | .ok none => .ok .noMatch
    | .ok (some stream) => .ok (.setStream stream.id)

/-- The `source_list` property (lines 556-561). -/
def source_list (e : SourceEntity) : List String :=
  "None" ::
    (e._streams.filter (fun stream => stream.id ≥ 1000 || stream.id - 996 == e._id)).map
      (·.name)

end AmpliPiSource

/-! ### `AmpliPiZone`: the zone/group entity adapter (lines 588-1049) -/

/-- The `extra_state_attributes` cache of a zone/group entity: the initial
empty list from `__init__`, or one of the two dict shapes built by
`_get_extra_attributes`. -/
inductive ZoneExtraAttrs
  | emptyList
  | groupZones (ids : List Int)
  | zoneId (id : Int)
deriving DecidableEq, Repr

/-- The cached fields of an `AmpliPiZone` entity (a zone when
`_is_group = false`, a group when `_is_group = true`). -/
structure ZoneEntity where
  _id : Int
  _name : String
  _is_group : Bool
  _zone : Option Zone
  _group : Option Group
  _streams : List Stream
  _sources : List Source
  _current_source : Option Source
  _current_stream : Option Stream
  _enabled : Bool
  _last_update_successful : Bool
  _available : Bool
  _extra_attributes : ZoneExtraAttrs
  _image_base_path : String
  _attr_media_album_artist : Option String
  _attr_media_album_name : Option String
  _attr_media_title : Option String
  _attr_media_track : Option String
  _attr_media_image_url : Option String
  _attr_media_channel : Option String
deriving DecidableEq, Repr

namespace AmpliPiZone

/-- The `state` property (lines 864-888).  The Python disjunct
`self._current_source == -1` compares a `Source` object with an int and is
always false, so it contributes nothing here.  As in
`AmpliPiSource.state`, `info.state in ('paused')` is a substring test on
the parenthesized string "paused" (and likewise "playing" and the twice
repeated "stopped" branch, lines 879-886). -/
def state (e : ZoneEntity) : PlayerState :=
  if e._last_update_successful = false then .unknown
  else match e._current_source with
    | none => .idle
    | some cs =>
      match cs.info with
      | none => .idle
      | some info =>
        match info.state with
        | none => .idle
        | some s =>
          if strContains "paused" s then .paused
          else if strContains "playing" s then .playing
          else if strContains "stopped" s then .idle
          else .idle

/-- `_get_extra_attributes` (lines 1003-1017).  It re-invokes
`get_status()`; within one update cycle the same snapshot is passed in.
It reads the cached `self._group` / `self._zone` (the fields as they were
before `sync_state` runs); `self._group.zones` on a missing group raises. -/
def _get_extra_attributes (e : ZoneEntity) (state : Status) :
    Except PyErr ZoneEntity :=
  if e._is_group then
    match e._group with
    | none => .error .attributeError
    | some g =>
      let zone_ids := g.zones.flatMap (fun zone_id =>
        (state.zones.filter (fun sz => sz.id == zone_id && !sz.disabled)).map
          (fun _ => zone_id))
      .ok { e with _extra_attributes := .groupZones zone_ids }
  else
    match e._zone with
    | none => .error .attributeError
    | some z => .ok { e with _extra_attributes := .zoneId z.id }

/-- `_update_available` (lines 1019-1029): a group is available when some
member zone id matches an enabled zone of the snapshot; a zone is
available when it is cached and not disabled.  As in
`_get_extra_attributes`, the cached `self._group` / `self._zone` are read
and the re-fetched snapshot is the parameter. -/
def _update_available (e : ZoneEntity) (state : Status) : Except PyErr Bool :=
  if e._is_group then
    match e._group with
    | none => .error .attributeError
    | some g =>
      .ok (g.zones.any (fun zone_id =>
        state.zones.any (fun sz => sz.id == zone_id && !sz.disabled)))
  else
    match e._zone with
    | none => .ok false
    | some z => .ok (!z.disabled)

/-- `sync_state` (lines 825-862), mutation by mutation; the `Bool` flags an
unhandled exception as in `AmpliPiSource.sync_state`. -/
def sync_state (e : ZoneEntity) (zone : Option Zone) (group : Option Group)
    (streams : List Stream) (sources : List Source) (enabled : Bool) :
    ZoneEntity × Bool :=
  let e1 : ZoneEntity :=
    { e with _zone := zone, _group := group,
             _streams := process_stream_names streams,
             _sources := sources,
             _last_update_successful := true,
             _enabled := enabled,
             _current_source := none }
  let cur : Except PyErr (Option Source) :=
    if e1._is_group then
      match e1._group with
      | none => .error .attributeError
      | some g => .ok (sources.find? (fun s => g.source_id == some s.id))
    else
      match e1._zone with
      | none => .error .attributeError
      | some z =>
        if z.source_id.isSome then
          .ok (sources.find? (fun s => z.source_id == some s.id))
        else .ok none
  match cur with
  | .error _ => (e1, true)
  | .ok cs =>
    let e2 := { e1 with _current_source := cs }
    let step : Except PyErr ZoneEntity :=
      match cs with
      | none => .ok e2
      | some c =>
        match c.input with
        | none => .error .typeError
        | some inp =>
          if strContains inp "stream=" && !strContains inp "stream=local" then
            match ((inp.splitOn "=").getD 1 "").toInt? with
            | none => .error .valueError
            | some stream_id =>
              .ok { e2 with
                      _current_stream := e2._streams.find? (fun z => z.id == stream_id) }
          else .ok e2
    match step with
    | .error _ => (e2, true)
    | .ok e3 =>
      match cs.bind (fun c => c.info) with
      | some info =>
        ({ e3 with
            _attr_media_album_artist := info.artist,
            _attr_media_album_name := info.album,
            _attr_media_title := info.name,
            _attr_media_track := info.track,
            _attr_media_image_url := build_url e3._image_base_path info.img_url,
            _attr_media_channel := info.station }, false)
      | none =>
        ({ e3 with
            _attr_media_album_artist := none, _attr_media_album_name := none,
            _attr_media_title := none, _attr_media_track := none,
            _attr_media_image_url := none, _attr_media_channel := none }, false)

/-- Lines 821-823 of `async_update`: recompute the extra attributes and
the availability flag, then run `sync_state`.  An exception out of either
helper propagates (there is no surrounding `try`). -/
def after_fetch (e : ZoneEntity) (st : Status) (zone : Option Zone)
    (group : Option Group) (enabled : Bool) : ZoneEntity × Bool :=
  match _get_extra_attributes e st with
  | .error _ => (e, true)
  | .ok eA =>
    match _update_available eA st with
    | .error _ => (eA, true)
    | .ok avail =>
      let eB := { eA with _available := avail }
      sync_state eB zone group st.streams st.sources enabled

/-- `async_update` (lines 790-823).  `fetch = none` models `get_status()`
raising; the `except` clause clears only `_last_update_successful`, and so
do the two not-found early returns inside the `try`. -/
def async_update (e : ZoneEntity) (fetch : Option Status) : ZoneEntity × Bool :=
  match fetch with
  | none => ({ e with _last_update_successful := false }, false)
  | some st =>
    if e._is_group then
      match st.groups.find? (fun z => z.id == e._id) with
      | none => ({ e with _last_update_successful := false }, false)
      | some group =>
        let enabled := (st.zones.find? (fun z => group.zones.contains z.id)).isSome
        after_fetch e st none (some group) enabled
    else
      match st.zones.find? (fun z => z.id == e._id) with
      | none => ({ e with _last_update_successful := false }, false)
      | some zone => after_fetch e st (some zone) none (!zone.disabled)

/-- The `available` property (lines 995-997). -/
def available (e : ZoneEntity) : Bool :=
  e._available

end AmpliPiZone

/-! ### `AmpliPiStream`: the stream entity adapter (lines 1157-1533) -/

/-- The `extra_state_attributes` cache of a stream entity: the initial
empty list from `__init__`, or the dict
`\x7b"amplipi_source_id": id-or-None\x7d`. -/
inductive StreamExtraAttrs
  | emptyList
  | sourceId (v : Option Int)
deriving DecidableEq, Repr

/-- The cached fields of an `AmpliPiStream` entity. -/
structure StreamEntity where
  _id : Int
  _name : String
  _stream : Option Stream
  _sources : List Source
  _current_source : Option Source
  _current_zones : List Zone
  _current_groups : List Group
  _last_update_successful : Bool
  _available : Bool
  _extra_attributes : StreamExtraAttrs
  _image_base_path : String
  _attr_media_album_artist : Option String
  _attr_media_album_name : Option String
  _attr_media_title : Option String
  _attr_media_track : Option String
  _attr_media_image_url : Option String
  _attr_media_channel : Option String
deriving DecidableEq, Repr

namespace AmpliPiStream

/-- The `state` property (lines 1375-1394); unlike the zone version this
one really tests `self._current_source.id == -1`.  As in
`AmpliPiSource.state`, `info.state in ('paused')` is a substring test on
the parenthesized string "paused" (likewise "playing" and "stopped"). -/
def state (e : StreamEntity) : PlayerState :=
  if e._last_update_successful = false then .unknown
  else match e._current_source with
    | none => .idle
    | some cs =>
      if cs.id = -1 then .idle
      else match cs.info with
        | none => .idle
        | some info =>
          match info.state with
          | none => .idle
          | some s =>
            if strContains "paused" s then .paused
            else if strContains "playing" s then .playing
            else if strContains "stopped" s then .idle
            else .idle

/-- `_get_extra_attributes` (lines 1504-1508): rebuilds the dict from the
cached `_current_source`. -/
def _get_extra_attributes (e : StreamEntity) : StreamEntity :=
  { e with _extra_attributes := .sourceId (e._current_source.map (·.id)) }

/-- `_update_available` (lines 1510-1513): available iff the cached
`_stream` record is set. -/
def _update_available (e : StreamEntity) : Bool :=
  match e._stream with
  | none => false
  | some _ => true

/-- `sync_state` (lines 1347-1373).  No statement of this method can
raise, so it returns the entity directly. -/
def sync_state (e : StreamEntity) (stream : Stream) (sources : List Source)
    (current_source : Option Source) (zones : List Zone) (groups : List Group) :
    StreamEntity :=
  let e1 : StreamEntity :=
    { e with _stream := (process_stream_names [stream]).head?,
             _sources := sources,
             _current_source := current_source,
             _last_update_successful := true,
             _current_zones := zones,
             _current_groups := groups }
  match current_source.bind (fun c => c.info) with
  | some info =>
    { e1 with
        _attr_media_album_artist := info.artist,
        _attr_media_album_name := info.album,
        _attr_media_title := info.name,
        _attr_media_track := info.track,
        _attr_media_image_url := build_url e1._image_base_path info.img_url,
        _attr_media_channel := info.station }
  | none =>
    { e1 with
        _attr_media_album_artist := none, _attr_media_album_name := none,
        _attr_media_title := none, _attr_media_track := none,
        _attr_media_image_url := none, _attr_media_channel := none }

/-- `async_update` (lines 1316-1344).  `fetch = none` models
`get_status()` raising, caught by the `except` clause.  When the snapshot
has no record with this stream's id, the local `current_source` (assigned
only under `if stream is not None`) stays unbound; `_get_extra_attributes`
and `_update_available` still run on the cached fields, and then the
`sync_state` call at line 1344 - outside the `try` - reads the unbound
local and raises `UnboundLocalError`, so `_last_update_successful` is
never cleared on this path. -/
def async_update (e : StreamEntity) (fetch : Option Status) :
    StreamEntity × Bool :=
  match fetch with
  | none => ({ e with _last_update_successful := false }, false)
  | some st =>
    match st.streams.find? (fun s => s.id == e._id) with
    | none =>
      let e1 := _get_extra_attributes e
      let e2 := { e1 with _available := _update_available e1 }
      (e2, true)
    | some stream =>
      let current_source :=
        st.sources.find? (fun s => s.input == some ("stream=" ++ toString stream.id))
      let groups :=
        match current_source with
        | some cs => st.groups.filter (fun g => g.source_id == some cs.id)
        | none => []
      let zones :=
        match current_source with
        | some cs => st.zones.filter (fun z => z.source_id == some cs.id)
        | none => []
      let e1 := _get_extra_attributes e
      let e2 := { e1 with _available := _update_available e1 }
      (sync_state e2 stream st.sources current_source zones groups, false)

/-- The loop condition of `find_source` (line 1490):
`source.input == '' or source.input == 'None' or source.input is None`. -/
def free_input (source : Source) : Bool :=
  source.input == some "" || source.input == some "None" || source.input == none

/-- `find_source` (lines 1484-1494).  With no current source, the loop
writes `self._current_source = source` for EVERY free source it meets (no
`break`), so the last free source wins; if none is free it raises, having
adopted nothing.  The element guard `source is not None` of the Python
loop is always true for a list of `Source` records and is not represented.
The second component is the raised exception, if any. -/
def find_source (e : StreamEntity) (sources : List Source) :
    StreamEntity × Option PyErr :=
  match e._current_source with
  | some _ => (e, none)
  | none =>
    let adopted := sources.foldl
      (fun acc source => if free_input source then some source else acc)
      (none : Option Source)
    match adopted with
    | none => (e, some (.exception "Not attached to a source and all sources are in use. Clear out a source or select an already existing one and try again."))
    | some s => ({ e with _current_source := some s }, none)

/-- The `source` property (lines 1448-1455).  The Python branch
`self._current_source == "None"` compares a `Source` object with a string
and is unreachable in this class. -/
def source (e : StreamEntity) : Option String :=
  e._current_source.map (fun cs => "Source " ++ toString (cs.id + 1))

/-- The `available` property (lines 1496-1498). -/
def available (e : StreamEntity) : Bool :=
  e._available

end AmpliPiStream

/-! ### Spec-side restatement used for the refinement comparison -/

/-- Spec-side playback-state mapping, written from the wording of the
amended claim: absent info record or absent state field map to idle; a
state value occurring as a substring of "paused" (including "paused"
itself and the empty string) maps to paused; failing that, one occurring
as a substring of "playing" (including "playing" itself) maps to playing;
everything else - "stopped" and every other unrecognized value - maps to
idle.  Compared against the `state` properties embedded from the code. -/
def stateFromInfo (info : Option SourceInfo) : PlayerState :=
  match info with
  | none => .idle
  | some i =>
    match i.state with
    | none => .idle
    | some s =>
      if strContains "paused" s then .paused
      else if strContains "playing" s then .playing
      else .idle

/-! ### Concrete sample records used by witnesses and counterexamples -/

/-- A source whose input is the empty string (a free input). -/
def srcFree0 : Source := { id := 0, name := "Source 1", input := some "", info := none }

/-- A source whose input is the literal string "None" (also free). -/
def srcFree1 : Source := { id := 1, name := "Source 2", input := some "None", info := none }

/-- A source occupied by local input. -/
def srcLocal : Source := { id := 2, name := "Source 3", input := some "local", info := none }

/-- A playback-info record in the "playing" state. -/
def infoPlaying : SourceInfo :=
  { state := some "playing", artist := none, album := none, track := none,
    name := none, station := none, img_url := none, supported_cmds := [] }

/-- A source playing stream 1000. -/
def srcPlaying : Source :=
  { id := 0, name := "Source 1", input := some "stream=1000", info := some infoPlaying }

/-- A normalized stream record. -/
def streamRadio : Stream :=
  { id := 1000, name := "AmpliPi Stream 1000: Radio", type := some "internetradio" }

/-- An enabled zone assigned to source 0. -/
def zoneOn : Zone :=
  { id := 1, name := "Zone 1", source_id := some 0, vol_f := none,
    mute := some false, disabled := false }

/-- A disabled, unassigned zone. -/
def zoneOff : Zone :=
  { id := 2, name := "Zone 2", source_id := none, vol_f := none,
    mute := some false, disabled := true }

/-- A group over zones 1 and 2. -/
def groupMain : Group :=
  { id := 7, name := "Group 1", source_id := some 0, zones := [1, 2],
    vol_f := none, mute := none }

/-- A sample source entity with one cached, normalized stream. -/
def sampleSourceEnt : SourceEntity :=
  { _id := 0, _name := "Source 1",
    _source := { id := 0, name := "Source 1", input := some "None", info := none },
    _streams := [streamRadio], _zones := [], _groups := [], _current_stream := none,
    _last_update_successful := true, _image_base_path := "http://amplipi.local",
    _attr_media_album_artist := none, _attr_media_album_name := none,
    _attr_media_title := none, _attr_media_track := none, _attr_app_name := none,
    _attr_media_image_url := none, _attr_media_channel := none }

/-- A sample zone entity caching the enabled zone `zoneOn`. -/
def sampleZoneEnt : ZoneEntity :=
  { _id := 1, _name := "Zone 1", _is_group := false, _zone := some zoneOn,
    _group := none, _streams := [], _sources := [], _current_source := none,
    _current_stream := none, _enabled := true, _last_update_successful := true,
    _available := true, _extra_attributes := .emptyList,
    _image_base_path := "http://amplipi.local",
    _attr_media_album_artist := none, _attr_media_album_name := none,
    _attr_media_title := none, _attr_media_track := none,
    _attr_media_image_url := none, _attr_media_channel := none }

/-- A sample group entity caching `groupMain`. -/
def sampleGroupEnt : ZoneEntity :=
  { sampleZoneEnt with
      _id := 7, _name := "Group 1", _is_group := true, _zone := none,
      _group := some groupMain }

/-- A sample stream entity for stream 1000 with no current source. -/
def sampleStreamEnt : StreamEntity :=
  { _id := 1000, _name := "AmpliPi Stream 1000: Radio", _stream := some streamRadio,
    _sources := [], _current_source := none, _current_zones := [],
    _current_groups := [], _last_update_successful := false, _available := false,
    _extra_attributes := .emptyList, _image_base_path := "http://amplipi.local",
    _attr_media_album_artist := none, _attr_media_album_name := none,
    _attr_media_title := none, _attr_media_track := none,
    _attr_media_image_url := none, _attr_media_channel := none }

/-- A stream entity whose last poll succeeded and whose source is playing. -/
def entC1 : StreamEntity :=
  { sampleStreamEnt with _last_update_successful := true,
                         _current_source := some srcPlaying }

/-- A snapshot that carries no stream record at all. -/
def stC1 : Status := { sources := [srcPlaying], zones := [], groups := [], streams := [] }

/-- A stream entity for stream 1001 whose last poll succeeded. -/
def entC9 : StreamEntity :=
  { sampleStreamEnt with
      _id := 1001,
      _stream := some { id := 1001, name := "AmpliPi Stream 1001: Jazz", type := none },
      _last_update_successful := true }

/-- A snapshot whose only stream record is stream 1000. -/
def stC9 : Status := { sources := [], zones := [], groups := [], streams := [streamRadio] }

/-- An entirely empty snapshot. -/
def stEmpty : Status := { sources := [], zones := [], groups := [], streams := [] }

/-- A snapshot carrying both sample zones and the sample group. -/
def stGroups : Status :=
  { sources := [], zones := [zoneOn, zoneOff], groups := [groupMain], streams := [] }

/-- A snapshot that carries stream 1000 but routes no source to it. -/
def stC4 : Status :=
  { sources := [srcLocal], zones := [], groups := [], streams := [streamRadio] }

/-! ### Helper lemmas about substring containment and the normalizer -/

theorem charsPrefixOf_append (p t : List Char) : charsPrefixOf p (p ++ t) = true := by
  induction p with
  | nil => rfl
  | cons a p ih => simp [charsPrefixOf, ih]

theorem charsContain_append_self (p t : List Char) :
    charsContain p (p ++ t) = true := by
  cases p with
  | nil =>
    cases t with
    | nil => rfl
    | cons c l => simp [charsContain, charsPrefixOf]
  | cons a p => simp [charsContain, charsPrefixOf, charsPrefixOf_append]

theorem strContains_marker (a b c : String) :
    strContains ("AmpliPi Stream " ++ a ++ b ++ c) "AmpliPi Stream" = true := by
  have hlit : "AmpliPi Stream ".data = "AmpliPi Stream".data ++ [' '] := by decide
  have hdata : ("AmpliPi Stream " ++ a ++ b ++ c).data
      = "AmpliPi Stream".data ++ ([' '] ++ (a.data ++ (b.data ++ c.data))) := by
    simp [String.data_append, hlit]
  rw [strContains, hdata]
  exact charsContain_append_self _ _

theorem normalize_stream_marker (s : Stream) :
    strContains (normalize_stream s).name "AmpliPi Stream" = true := by
  unfold normalize_stream
  by_cases h : strContains s.name "AmpliPi Stream" = true
  · simp [h]
  · simp only [Bool.not_eq_true] at h
    simp only [h, Bool.false_eq_true, if_false]
    exact strContains_marker _ _ _

theorem normalize_stream_idem (s : Stream) :
    normalize_stream (normalize_stream s) = normalize_stream s := by
  have h := normalize_stream_marker s
  unfold normalize_stream
  rw [if_pos]
  exact h

theorem process_stream_names_idem (l : List Stream) :
    process_stream_names (process_stream_names l) = process_stream_names l := by
  unfold process_stream_names
  rw [List.map_map]
  apply List.map_congr_left
  intro s _
  exact normalize_stream_idem s

/-- C5.  Corrected claim: `process_stream_names` is idempotent, and every
stream whose original name does not already contain the marker
"AmpliPi Stream" gets the "AmpliPi Stream \x7bid\x7d: " prefix prepended
exactly once, with any further number of normalization passes changing
nothing.  (The original claim asserted the prefix for EVERY stream; a name
that already contains the marker is left untouched and may carry the
prefix zero times - see the counterexample.) -/
theorem c5_normalizer (l : List Stream) (s : Stream)
    (h : strContains s.name "AmpliPi Stream" = false) :
    process_stream_names (process_stream_names l) = process_stream_names l ∧
    process_stream_names [s]
      = [{ s with name := "AmpliPi Stream " ++ toString s.id ++ ": " ++ s.name }] ∧
    (∀ n : Nat,
      process_stream_names^[n] (process_stream_names [s])
        = process_stream_names [s]) := by
  refine ⟨process_stream_names_idem l, ?_, ?_⟩
  · simp [process_stream_names, normalize_stream, h]
  · intro n
    induction n with
    | zero => rfl
    | succ n ih => rw [Function.iterate_succ_apply', ih, process_stream_names_idem]

/-- C5 witness: the theorem instantiated at a one-element list and at a
stream named "radio". -/
theorem c5_normalizer_witness :
    strContains "radio" "AmpliPi Stream" = false ∧
    (process_stream_names (process_stream_names [streamRadio])
        = process_stream_names [streamRadio] ∧
      process_stream_names [{ id := 5, name := "radio", type := none }]
        = [{ id := 5, name := "AmpliPi Stream 5: radio", type := none }] ∧
      (∀ n : Nat,
        process_stream_names^[n]
            (process_stream_names [{ id := 5, name := "radio", type := none }])
          = process_stream_names [{ id := 5, name := "radio", type := none }])) := by
  constructor
  · decide
  · have h := c5_normalizer [streamRadio]
      { id := 5, name := "radio", type := none } (by decide)
    refine ⟨h.1, ?_, h.2.2⟩
    rw [h.2.1]
    decide

/-- C5 counterexample: a stream whose original name already contains the
marker "AmpliPi Stream" keeps that name unchanged, so after normalization
it does not carry the "AmpliPi Stream 5:" prefix at all - the claim that
every name carries the prefix exactly once fails. -/
theorem c5_counterexample :
    process_stream_names [{ id := 5, name := "My AmpliPi Stream", type := none }]
      = [{ id := 5, name := "My AmpliPi Stream", type := none }] ∧
    strContains "My AmpliPi Stream" "AmpliPi Stream 5:" = false := by
  decide

/-- C10.  The `source_list` of a source entity starts with "None" and then
lists exactly the names of the cached streams whose id is at least 1000 or
equals 996 plus the source id (so RCA streams 996-999 appear only on the
matching source, and every other cached stream is omitted). -/
theorem c10_source_list (e : SourceEntity) :
    (AmpliPiSource.source_list e).head? = some "None" ∧
    (AmpliPiSource.source_list e).tail
      = (e._streams.filter (fun s => s.id ≥ 1000 || s.id == 996 + e._id)).map
          (·.name) := by
  constructor
  · rfl
  · show (e._streams.filter _).map _ = _
    congr 1
    apply List.filter_congr
    intro a _
    have h2 : (a.id - 996 == e._id) = (a.id == 996 + e._id) := by
      by_cases h : a.id - 996 = e._id
      · have h' : a.id = 996 + e._id := by omega
        simp [h, h']
      · have h' : ¬ a.id = 996 + e._id := by omega
        simp [h, h']
    rw [h2]

/-- C8.  `build_url` maps absent input to absent output, passes a valid
URL through unchanged, otherwise returns the slash-joined base and input
when that is valid and absent otherwise; it never returns a string the
validator rejects.  The four concrete examples of the spec are included.
The external validator itself is `validators_url`, modelled from the spec. -/
theorem c8_build_url (base img : String) :
    build_url base none = none ∧
    (validators_url img = true → build_url base (some img) = some img) ∧
    (validators_url img = false → validators_url (base ++ "/" ++ img) = true →
        build_url base (some img) = some (base ++ "/" ++ img)) ∧
    (validators_url img = false → validators_url (base ++ "/" ++ img) = false →
        build_url base (some img) = none) ∧
    (∀ r, build_url base (some img) = some r → validators_url r = true) ∧
    build_url "http://host" none = none ∧
    build_url "base" (some "http://x/y") = some "http://x/y" ∧
    build_url "http://host/api" (some "art.jpg") = some "http://host/api/art.jpg" ∧
    build_url "not a base" (some "not a url") = none := by
  refine ⟨rfl, ?_, ?_, ?_, ?_, by decide, by decide, by decide, by decide⟩
  · intro h
    simp [build_url, h]
  · intro h1 h2
    simp [build_url, h1, h2]
  · intro h1 h2
    simp [build_url, h1, h2]
  · intro r hr
    by_cases h1 : validators_url img = true
    · simp [build_url, h1] at hr
      rw [← hr]
      exact h1
    · simp only [Bool.not_eq_true] at h1
      by_cases h2 : validators_url (base ++ "/" ++ img) = true
      · simp [build_url, h1, h2] at hr
        rw [← hr]
        exact h2
      · simp only [Bool.not_eq_true] at h2
        simp [build_url, h1, h2] at hr

/-- C8 witness: the pass-through and concatenation branches applied at the
spec's own concrete inputs. -/
theorem c8_build_url_witness :
    (validators_url "http://x/y" = true ∧
      build_url "base" (some "http://x/y") = some "http://x/y") ∧
    (validators_url "art.jpg" = false ∧
      validators_url ("http://host/api" ++ "/" ++ "art.jpg") = true ∧
      build_url "http://host/api" (some "art.jpg")
        = some ("http://host/api" ++ "/" ++ "art.jpg")) := by
  refine ⟨⟨by decide, ?_⟩, ⟨by decide, by decide, ?_⟩⟩
  · exact (c8_build_url "base" "http://x/y").2.1 (by decide)
  · exact (c8_build_url "http://host/api" "art.jpg").2.2.1 (by decide) (by decide)

/-- C6.  Corrected claim: the source codec parses the FIRST DIGIT CHARACTER
of the label minus one (`codec("Source 3") == 2`), the stream codec keeps
the first four digits when the first digit is 1 and the first three when
it is 9 (`codec("AmpliPi Stream 1001: Radio") == "1001"`); when the label
has NO digits both codecs raise an IndexError rather than returning a
sentinel; the stream codec returns None (and logs) only when digits are
present but the first digit is neither 1 nor 9.  (The original claim said
a digitless label returns a sentinel/None without raising - refuted by the
counterexample.) -/
theorem c6_codec (s t : String) (c : Char) (rest : List Char)
    (h : s.data.filter Char.isDigit = [])
    (ht : t.data.filter Char.isDigit = c :: rest)
    (h1 : c ≠ '1') (h9 : c ≠ '9') :
    extract_source_id_from_name "Source 3" = .ok 2 ∧
    AmpliPiSource.process_stream_id "AmpliPi Stream 1001: Radio"
      = .ok (some "1001") ∧
    extract_source_id_from_name s = .error .indexError ∧
    AmpliPiSource.process_stream_id s = .error .indexError ∧
    AmpliPiSource.process_stream_id t = .ok none := by
  refine ⟨by decide, by decide, ?_, ?_, ?_⟩
  · unfold extract_source_id_from_name
    rw [h]
  · unfold AmpliPiSource.process_stream_id
    rw [h]
  · unfold AmpliPiSource.process_stream_id
    rw [ht]
    simp [h1, h9]

/-- C6 witness: the codec theorem instantiated at the digitless label
"None" and at "Source 3", whose first digit is neither 1 nor 9. -/
theorem c6_codec_witness :
    "None".data.filter Char.isDigit = [] ∧
    "Source 3".data.filter Char.isDigit = ['3'] ∧
    (extract_source_id_from_name "Source 3" = .ok 2 ∧
      AmpliPiSource.process_stream_id "AmpliPi Stream 1001: Radio"
        = .ok (some "1001") ∧
      extract_source_id_from_name "None" = .error .indexError ∧
      AmpliPiSource.process_stream_id "None" = .error .indexError ∧
      AmpliPiSource.process_stream_id "Source 3" = .ok none) :=
  ⟨by decide, by decide,
    c6_codec "None" "Source 3" '3' [] (by decide) (by decide) (by decide) (by decide)⟩

/-- C6 counterexample: on the digitless label "NoDigits" both codecs raise
an IndexError (`''.join(re.findall(...))[0]` on an empty string) instead
of returning a sentinel/None as the claim states. -/
theorem c6_counterexample :
    extract_source_id_from_name "NoDigits" = .error .indexError ∧
    AmpliPiSource.process_stream_id "NoDigits" = .error .indexError := by
  decide

/-- C2.  A zone entity is available iff its cached zone is not disabled; a
group entity is available iff some zone of the snapshot is an enabled
member of the cached group's zone-identifier set (in particular, a group
with zero enabled member zones is unavailable - and a `Group` record
carries no disabled flag of its own that could interfere). -/
theorem c2_availability (ez eg : ZoneEntity) (z : Zone) (g : Group) (st : Status)
    (hz1 : ez._is_group = false) (hz2 : ez._zone = some z)
    (hg1 : eg._is_group = true) (hg2 : eg._group = some g) :
    (AmpliPiZone._update_available ez st = .ok true ↔ z.disabled = false) ∧
    (AmpliPiZone._update_available eg st = .ok true ↔
      ∃ sz ∈ st.zones, sz.id ∈ g.zones ∧ sz.disabled = false) := by
  constructor
  · unfold AmpliPiZone._update_available
    simp [hz1, hz2]
  · unfold AmpliPiZone._update_available
    simp only [hg1, if_true, hg2]
    simp only [Except.ok.injEq, List.any_eq_true, Bool.and_eq_true, beq_iff_eq,
      Bool.not_eq_true']
    constructor
    · rintro ⟨zid, hzid, sz, hsz, hid, hdis⟩
      exact ⟨sz, hsz, hid ▸ hzid, hdis⟩
    · rintro ⟨sz, hsz, hmem, hdis⟩
      exact ⟨sz.id, hmem, sz, hsz, rfl, hdis⟩

/-- C2 witness: the availability theorem instantiated at the sample zone,
group and snapshot. -/
theorem c2_availability_witness :
    (AmpliPiZone._update_available sampleZoneEnt stGroups = .ok true ↔
      zoneOn.disabled = false) ∧
    (AmpliPiZone._update_available sampleGroupEnt stGroups = .ok true ↔
      ∃ sz ∈ stGroups.zones, sz.id ∈ groupMain.zones ∧ sz.disabled = false) :=
  c2_availability sampleZoneEnt sampleGroupEnt zoneOn groupMain stGroups
    rfl rfl rfl rfl

/-- The adoption loop of `find_source`: folding the always-overwrite step
over the source list lands on the LAST free source, i.e. the last element
of the filtered list. -/
theorem foldl_adopts_last (l : List Source) (init : Option Source) :
    l.foldl (fun acc source => if AmpliPiStream.free_input source then some source else acc) init
      = match (l.filter AmpliPiStream.free_input).getLast? with
        | some s => some s
        | none => init := by
  induction l generalizing init with
  | nil => rfl
  | cons x xs ih =>
    rw [List.foldl_cons, ih]
    by_cases hx : AmpliPiStream.free_input x = true
    · rw [if_pos hx, List.filter_cons_of_pos hx, List.getLast?_cons]
      cases hl : (xs.filter AmpliPiStream.free_input).getLast? with
      | none => simp [hl]
      | some y => simp [hl]
    · rw [if_neg hx, List.filter_cons_of_neg (Bool.not_eq_true _ ▸ hx)]

/-- C3.  Corrected claim: when a stream entity has no current source,
`find_source` scans the sources and adopts the LAST one (not the first:
the loop has no break) whose input is the empty string, the string "None",
or absent; if no source is free it raises the resource-exhaustion error
and adopts nothing; if the entity already has a current source the call
changes nothing. -/
theorem c3_find_source (e e2 : StreamEntity) (sources : List Source)
    (h : e._current_source = none) (h2 : e2._current_source.isSome = true) :
    ((sources.filter AmpliPiStream.free_input) ≠ [] →
      AmpliPiStream.find_source e sources
        = ({ e with _current_source := (sources.filter AmpliPiStream.free_input).getLast? },
            none)) ∧
    ((sources.filter AmpliPiStream.free_input) = [] →
      AmpliPiStream.find_source e sources
        = (e, some (.exception "Not attached to a source and all sources are in use. Clear out a source or select an already existing one and try again."))) ∧
    AmpliPiStream.find_source e2 sources = (e2, none) := by
  refine ⟨?_, ?_, ?_⟩
  · intro hne
    cases hl : (sources.filter AmpliPiStream.free_input).getLast? with
    | none => exact absurd (List.getLast?_eq_none_iff.mp hl) hne
    | some y =>
      unfold AmpliPiStream.find_source
      rw [h, foldl_adopts_last, hl]
  · intro hnil
    unfold AmpliPiStream.find_source
    rw [h, foldl_adopts_last, hnil]
    rfl
  · unfold AmpliPiStream.find_source
    cases hcs : e2._current_source with
    | none => rw [hcs] at h2; simp at h2
    | some s => simp

/-- C3 witness: adoption with two free sources, exhaustion with only an
occupied source, and the no-op on an entity that already has a source. -/
theorem c3_find_source_witness :
    AmpliPiStream.find_source sampleStreamEnt [srcFree0, srcFree1]
      = ({ sampleStreamEnt with
            _current_source := ([srcFree0, srcFree1].filter AmpliPiStream.free_input).getLast? },
          none) ∧
    AmpliPiStream.find_source sampleStreamEnt [srcLocal]
      = (sampleStreamEnt, some (.exception "Not attached to a source and all sources are in use. Clear out a source or select an already existing one and try again.")) ∧
    AmpliPiStream.find_source entC1 [srcLocal] = (entC1, none) := by
  refine ⟨?_, ?_, ?_⟩
  · exact (c3_find_source sampleStreamEnt entC1 [srcFree0, srcFree1] rfl
      (by decide)).1 (by decide)
  · exact (c3_find_source sampleStreamEnt entC1 [srcLocal] rfl (by decide)).2.1
      (by decide)
  · exact (c3_find_source sampleStreamEnt entC1 [srcLocal] rfl (by decide)).2.2

/-- C3 counterexample: with the free sources 0 and 1 both offered,
`find_source` adopts source 1 - the last free one - although source 0 is
also free and comes first, so the claim that the FIRST free source is
adopted fails. -/
theorem c3_counterexample :
    (AmpliPiStream.find_source sampleStreamEnt [srcFree0, srcFree1]).1._current_source
      = some srcFree1 ∧
    AmpliPiStream.free_input srcFree0 = true ∧
    srcFree1.id ≠ srcFree0.id := by
  decide

theorem process_stream_id_error (s : String) (er : PyErr)
    (h : AmpliPiSource.process_stream_id s = .error er) :
    s.data.filter Char.isDigit = [] := by
  unfold AmpliPiSource.process_stream_id at h
  cases hd : s.data.filter Char.isDigit with
  | nil => rfl
  | cons c rest =>
    rw [hd] at h
    by_cases h1 : c = '1'
    · simp [h1] at h
    · by_cases h9 : c = '9'
      · simp [h1, h9] at h
      · simp [h1, h9] at h

theorem find_matching_stream_none (source : String) (l : List Stream)
    (hsrc : source.data.filter Char.isDigit ≠ [])
    (hdig : ∀ z ∈ l, z.name.data.filter Char.isDigit ≠ [])
    (hnm : ∀ z ∈ l, AmpliPiSource.process_stream_id z.name
        ≠ AmpliPiSource.process_stream_id source) :
    AmpliPiSource.find_matching_stream source l = .ok none := by
  induction l with
  | nil => rfl
  | cons z rest ih =>
    cases hpz : AmpliPiSource.process_stream_id z.name with
    | error er => exact absurd (process_stream_id_error _ _ hpz) (hdig z (by simp))
    | ok pz =>
      cases hps : AmpliPiSource.process_stream_id source with
      | error er => exact absurd (process_stream_id_error _ _ hps) hsrc
      | ok ps =>
        have hne : (pz == ps) = false := by
          apply beq_eq_false_iff_ne.mpr
          intro hEq
          exact hnm z (by simp) (by rw [hpz, hps, hEq])
        unfold AmpliPiSource.find_matching_stream
        rw [hpz, hps]
        simp only [hne, Bool.false_eq_true, if_false]
        exact ih (fun x hx => hdig x (by simp [hx]))
          (fun x hx => hnm x (by simp [hx]))

/-- C7.  Corrected claim: for a label that is neither the source's own
name nor "None": with an empty stream cache, `async_select_source` logs a
warning and is a no-op (no exception, no device call, no cached state
change), and the same holds whenever the label contains a digit, every
cached stream name contains a digit, and no cached stream's parsed id
equals the label's.  The scan is NOT raise-free in general: it raises an
IndexError out of `process_stream_id` when the first cached stream name
is digitless (whatever the label - such names survive normalization, see
C5), and likewise when the label is digitless against a nonempty cache
whose first name carries digits (the counterexample). -/
theorem c7_select_source (e : SourceEntity) (source : String)
    (hname : (e._source.name == source) = false)
    (hnone : (source == "None") = false) :
    (e._streams = [] →
      AmpliPiSource.async_select_source e source = .ok .noMatch) ∧
    (source.data.filter Char.isDigit ≠ [] →
      (∀ z ∈ e._streams, z.name.data.filter Char.isDigit ≠ []) →
      (∀ z ∈ e._streams, AmpliPiSource.process_stream_id z.name
          ≠ AmpliPiSource.process_stream_id source) →
      AmpliPiSource.async_select_source e source = .ok .noMatch) ∧
    (∀ z rest, e._streams = z :: rest →
      z.name.data.filter Char.isDigit = [] →
      AmpliPiSource.async_select_source e source = .error .indexError) := by
  refine ⟨?_, ?_, ?_⟩
  · intro hnil
    unfold AmpliPiSource.async_select_source
    rw [hname, hnone, hnil]
    rfl
  · intro hsrc hdig hnm
    have hfind : AmpliPiSource.find_matching_stream source e._streams
        = .ok none :=
      find_matching_stream_none source e._streams hsrc hdig hnm
    unfold AmpliPiSource.async_select_source
    rw [hname, hnone, hfind]
    rfl
  · intro z rest hz hnd
    have hpz : AmpliPiSource.process_stream_id z.name = .error .indexError := by
      unfold AmpliPiSource.process_stream_id
      rw [hnd]
    unfold AmpliPiSource.async_select_source
    rw [hname, hnone, hz]
    unfold AmpliPiSource.find_matching_stream
    rw [hpz]
    rfl

/-- C7 witness: the three branches instantiated - an empty cache, the
unmatched label 1005 against the stream-1000 cache, and the digitless
cached name "My AmpliPi Stream" making the scan raise on the label
"Source 3". -/
theorem c7_select_source_witness :
    AmpliPiSource.async_select_source
        { sampleSourceEnt with _streams := [] } "AmpliPi Stream 1005: Jazz"
      = .ok .noMatch ∧
    AmpliPiSource.async_select_source sampleSourceEnt "AmpliPi Stream 1005: Jazz"
      = .ok .noMatch ∧
    AmpliPiSource.async_select_source
        { sampleSourceEnt with
            _streams := [{ id := 5, name := "My AmpliPi Stream", type := none }] }
        "Source 3"
      = .error .indexError :=
  ⟨(c7_select_source { sampleSourceEnt with _streams := [] }
      "AmpliPi Stream 1005: Jazz" (by decide) (by decide)).1 rfl,
   (c7_select_source sampleSourceEnt "AmpliPi Stream 1005: Jazz"
      (by decide) (by decide)).2.1 (by decide) (by decide) (by decide),
   (c7_select_source
      { sampleSourceEnt with
          _streams := [{ id := 5, name := "My AmpliPi Stream", type := none }] }
      "Source 3" (by decide) (by decide)).2.2
     { id := 5, name := "My AmpliPi Stream", type := none } [] rfl (by decide)⟩

/-- C7 counterexample: the digitless label "Garbage" matches no cached
stream (premise of the claim), yet the operation raises an IndexError
instead of being a warn-and-return no-op. -/
theorem c7_counterexample :
    AmpliPiSource.async_select_source sampleSourceEnt "Garbage"
      = .error .indexError ∧
    (sampleSourceEnt._source.name == "Garbage") = false ∧
    (("Garbage" : String) == "None") = false ∧
    (∀ z ∈ sampleSourceEnt._streams,
      AmpliPiSource.process_stream_id z.name
        ≠ AmpliPiSource.process_stream_id "Garbage") := by
  decide

/-- C4.  After a stream entity's update from a snapshot that carries the
stream record but routes no source to `stream={id}`, the entity reports
idle, an absent current source, and - because the cached stream record is
set - available; no exception is raised on this path. -/
theorem c4_stream_no_matching_source (e : StreamEntity) (st : Status)
    (s w : Stream)
    (hs : st.streams.find? (fun x => x.id == e._id) = some s)
    (hw : e._stream = some w)
    (hns : st.sources.find?
        (fun x => x.input == some ("stream=" ++ toString s.id)) = none) :
    (AmpliPiStream.async_update e (some st)).2 = false ∧
    AmpliPiStream.state (AmpliPiStream.async_update e (some st)).1 = .idle ∧
    (AmpliPiStream.async_update e (some st)).1._current_source = none ∧
    AmpliPiStream.source (AmpliPiStream.async_update e (some st)).1 = none ∧
    AmpliPiStream.available (AmpliPiStream.async_update e (some st)).1 = true := by
  have hupd : AmpliPiStream.async_update e (some st)
      = (AmpliPiStream.sync_state
          { AmpliPiStream._get_extra_attributes e with
              _available := AmpliPiStream._update_available
                (AmpliPiStream._get_extra_attributes e) }
          s st.sources none [] [], false) := by
    simp only [AmpliPiStream.async_update, hs, hns]
  rw [hupd]
  refine ⟨rfl, ?_, ?_, ?_, ?_⟩ <;>
    simp [AmpliPiStream.sync_state, AmpliPiStream.state, AmpliPiStream.source,
      AmpliPiStream.available, AmpliPiStream._get_extra_attributes,
      AmpliPiStream._update_available, hw]

/-- C4 witness: the theorem applied to the sample stream entity and the
snapshot `stC4`, whose only source plays local input. -/
theorem c4_stream_no_matching_source_witness :
    (AmpliPiStream.async_update sampleStreamEnt (some stC4)).2 = false ∧
    AmpliPiStream.state (AmpliPiStream.async_update sampleStreamEnt (some stC4)).1
      = .idle ∧
    (AmpliPiStream.async_update sampleStreamEnt (some stC4)).1._current_source
      = none ∧
    AmpliPiStream.source (AmpliPiStream.async_update sampleStreamEnt (some stC4)).1
      = none ∧
    AmpliPiStream.available
        (AmpliPiStream.async_update sampleStreamEnt (some stC4)).1
      = true :=
  c4_stream_no_matching_source sampleStreamEnt stC4 streamRadio streamRadio
    (by decide) (by decide) (by decide)

/-! ### State-mapping helper lemmas for C1 -/

theorem state_if_chain (s : String) :
    (if strContains "paused" s then PlayerState.paused
     else if strContains "playing" s then PlayerState.playing
     else if strContains "stopped" s then PlayerState.idle
     else PlayerState.idle)
      = (if strContains "paused" s then PlayerState.paused
         else if strContains "playing" s then PlayerState.playing
         else PlayerState.idle) := by
  by_cases hp : strContains "paused" s = true
  · simp [hp]
  · by_cases hpl : strContains "playing" s = true
    · simp [hp, hpl]
    · by_cases hst : strContains "stopped" s = true
      · simp [hp, hpl, hst]
      · simp [hp, hpl, hst]

theorem source_state_eq (e : SourceEntity)
    (h : e._last_update_successful = true) :
    AmpliPiSource.state e = stateFromInfo e._source.info := by
  cases hi : e._source.info with
  | none => simp [AmpliPiSource.state, stateFromInfo, h, hi]
  | some info =>
    cases hs : info.state with
    | none => simp [AmpliPiSource.state, stateFromInfo, h, hi, hs]
    | some s =>
      simp only [AmpliPiSource.state, stateFromInfo, h, hi, hs,
        Bool.true_eq_false, if_false]
      exact state_if_chain s

theorem zone_state_eq (e : ZoneEntity)
    (h : e._last_update_successful = true) :
    AmpliPiZone.state e
      = (match e._current_source with
         | none => PlayerState.idle
         | some cs => stateFromInfo cs.info) := by
  cases hc : e._current_source with
  | none => simp [AmpliPiZone.state, h, hc]
  | some cs =>
    cases hi : cs.info with
    | none => simp [AmpliPiZone.state, stateFromInfo, h, hc, hi]
    | some info =>
      cases hs : info.state with
      | none => simp [AmpliPiZone.state, stateFromInfo, h, hc, hi, hs]
      | some s =>
        simp only [AmpliPiZone.state, stateFromInfo, h, hc, hi, hs,
          Bool.true_eq_false, if_false]
        exact state_if_chain s

theorem stream_state_eq (e : StreamEntity)
    (h : e._last_update_successful = true) :
    AmpliPiStream.state e
      = (match e._current_source with
         | none => PlayerState.idle
         | some cs =>
           if cs.id = -1 then PlayerState.idle else stateFromInfo cs.info) := by
  cases hc : e._current_source with
  | none => simp [AmpliPiStream.state, h, hc]
  | some cs =>
    by_cases hid : cs.id = -1
    · simp [AmpliPiStream.state, h, hc, hid]
    · cases hi : cs.info with
      | none => simp [AmpliPiStream.state, stateFromInfo, h, hc, hid, hi]
      | some info =>
        cases hs : info.state with
        | none => simp [AmpliPiStream.state, stateFromInfo, h, hc, hid, hi, hs]
        | some s =>
          simp only [AmpliPiStream.state, stateFromInfo, h, hc, hid,
            Bool.true_eq_false, if_false, hi, hs]
          exact state_if_chain s

/-- C1.  Corrected claim: every entity reports unknown after a failed
poll; a source or zone/group entity also reports unknown when its
identifier is missing from the snapshot; a STREAM entity whose identifier
is missing instead raises an unhandled error out of the update (the
unbound `current_source` local) and keeps its previous flag and state.
Otherwise - whenever the last update succeeded - the reported state is the
mapping `stateFromInfo` of the (current) source's info: because the
Python membership tests are substring tests on parenthesized strings, a
state value contained in "paused" (so "paused" itself, but also e.g.
"use" or the empty string) maps to paused, failing that one contained in
"playing" (so "playing" itself, but also e.g. "in") maps to playing, and
everything else - absent info, absent state, "stopped", and every value
contained in neither word - maps to idle; entities without a current
source are idle, and a stream entity whose current source has identifier
-1 is idle as well. -/
theorem c1_state_machine :
    (∀ e : SourceEntity,
       AmpliPiSource.state (AmpliPiSource.async_update e none).1 = .unknown) ∧
    (∀ e : ZoneEntity,
       AmpliPiZone.state (AmpliPiZone.async_update e none).1 = .unknown) ∧
    (∀ e : StreamEntity,
       AmpliPiStream.state (AmpliPiStream.async_update e none).1 = .unknown) ∧
    (∀ (e : SourceEntity) (st : Status),
       st.sources.find? (fun z => z.id == e._source.id) = none →
       AmpliPiSource.state (AmpliPiSource.async_update e (some st)).1 = .unknown) ∧
    (∀ (e : ZoneEntity) (st : Status), e._is_group = false →
       st.zones.find? (fun z => z.id == e._id) = none →
       AmpliPiZone.state (AmpliPiZone.async_update e (some st)).1 = .unknown) ∧
    (∀ (e : ZoneEntity) (st : Status), e._is_group = true →
       st.groups.find? (fun z => z.id == e._id) = none →
       AmpliPiZone.state (AmpliPiZone.async_update e (some st)).1 = .unknown) ∧
    (∀ (e : StreamEntity) (st : Status),
       st.streams.find? (fun s => s.id == e._id) = none →
       (AmpliPiStream.async_update e (some st)).2 = true ∧
       AmpliPiStream.state (AmpliPiStream.async_update e (some st)).1
         = AmpliPiStream.state e) ∧
    (∀ e : SourceEntity, e._last_update_successful = true →
       AmpliPiSource.state e = stateFromInfo e._source.info) ∧
    (∀ e : ZoneEntity, e._last_update_successful = true →
       AmpliPiZone.state e
         = (match e._current_source with
            | none => PlayerState.idle
            | some cs => stateFromInfo cs.info)) ∧
    (∀ e : StreamEntity, e._last_update_successful = true →
       AmpliPiStream.state e
         = (match e._current_source with
            | none => PlayerState.idle
            | some cs =>
              if cs.id = -1 then PlayerState.idle
              else stateFromInfo cs.info)) := by
  refine ⟨?_, ?_, ?_, ?_, ?_, ?_, ?_,
    source_state_eq, zone_state_eq, stream_state_eq⟩
  · intro e
    simp [AmpliPiSource.async_update, AmpliPiSource.state]
  · intro e
    simp [AmpliPiZone.async_update, AmpliPiZone.state]
  · intro e
    simp [AmpliPiStream.async_update, AmpliPiStream.state]
  · intro e st h
    simp only [AmpliPiSource.async_update, h]
    simp [AmpliPiSource.state]
  · intro e st hg h
    simp only [AmpliPiZone.async_update, hg, h]
    simp [AmpliPiZone.state]
  · intro e st hg h
    simp only [AmpliPiZone.async_update, hg, h]
    simp [AmpliPiZone.state]
  · intro e st h
    constructor
    · simp only [AmpliPiStream.async_update, h]
    · simp only [AmpliPiStream.async_update, h]
      rfl

/-- C1 witness: each clause of the state-machine theorem instantiated at
the sample entities and snapshots. -/
theorem c1_state_machine_witness :
    AmpliPiSource.state (AmpliPiSource.async_update sampleSourceEnt none).1
      = .unknown ∧
    AmpliPiZone.state (AmpliPiZone.async_update sampleZoneEnt none).1
      = .unknown ∧
    AmpliPiStream.state (AmpliPiStream.async_update sampleStreamEnt none).1
      = .unknown ∧
    AmpliPiSource.state
        (AmpliPiSource.async_update sampleSourceEnt (some stEmpty)).1
      = .unknown ∧
    AmpliPiZone.state (AmpliPiZone.async_update sampleZoneEnt (some stEmpty)).1
      = .unknown ∧
    AmpliPiZone.state (AmpliPiZone.async_update sampleGroupEnt (some stEmpty)).1
      = .unknown ∧
    ((AmpliPiStream.async_update sampleStreamEnt (some stEmpty)).2 = true ∧
      AmpliPiStream.state
          (AmpliPiStream.async_update sampleStreamEnt (some stEmpty)).1
        = AmpliPiStream.state sampleStreamEnt) ∧
    AmpliPiSource.state sampleSourceEnt
      = stateFromInfo sampleSourceEnt._source.info ∧
    AmpliPiZone.state sampleZoneEnt
      = (match sampleZoneEnt._current_source with
         | none => PlayerState.idle
         | some cs => stateFromInfo cs.info) ∧
    AmpliPiStream.state entC1
      = (match entC1._current_source with
         | none => PlayerState.idle
         | some cs =>
           if cs.id = -1 then PlayerState.idle else stateFromInfo cs.info) :=
  ⟨c1_state_machine.1 sampleSourceEnt,
   c1_state_machine.2.1 sampleZoneEnt,
   c1_state_machine.2.2.1 sampleStreamEnt,
   c1_state_machine.2.2.2.1 sampleSourceEnt stEmpty (by decide),
   c1_state_machine.2.2.2.2.1 sampleZoneEnt stEmpty (by decide) (by decide),
   c1_state_machine.2.2.2.2.2.1 sampleGroupEnt stEmpty (by decide) (by decide),
   c1_state_machine.2.2.2.2.2.2.1 sampleStreamEnt stEmpty (by decide),
   c1_state_machine.2.2.2.2.2.2.2.1 sampleSourceEnt (by decide),
   c1_state_machine.2.2.2.2.2.2.2.2.1 sampleZoneEnt (by decide),
   c1_state_machine.2.2.2.2.2.2.2.2.2 entC1 (by decide)⟩

/-- C1 counterexample: a stream entity whose last poll succeeded while its
source was playing, updated from a snapshot that no longer carries its
stream record, does NOT report unknown (the update raises instead of
clearing the flag), refuting the claim that a missing identifier always
forces the unknown state. -/
theorem c1_counterexample :
    stC1.streams.find? (fun s => s.id == entC1._id) = none ∧
    AmpliPiStream.state (AmpliPiStream.async_update entC1 (some stC1)).1
      = .playing ∧
    AmpliPiStream.state (AmpliPiStream.async_update entC1 (some stC1)).1
      ≠ .unknown := by
  decide

/-- C9.  Corrected claim: when the status fetch raises, or when a source
or zone/group entity's identifier is absent from the snapshot, the update
aborts with exactly one cached-state change - the last-update-successful
flag is cleared and every other field keeps its prior value - and no
exception escapes; a STREAM entity whose identifier is absent instead
recomputes its extra attributes and availability from the cached fields,
KEEPS its last-update-successful flag, and raises an unhandled error. -/
theorem c9_update_failure :
    (∀ e : SourceEntity,
       AmpliPiSource.async_update e none
         = ({ e with _last_update_successful := false }, false)) ∧
    (∀ (e : SourceEntity) (st : Status),
       st.sources.find? (fun z => z.id == e._source.id) = none →
       AmpliPiSource.async_update e (some st)
         = ({ e with _last_update_successful := false }, false)) ∧
    (∀ e : ZoneEntity,
       AmpliPiZone.async_update e none
         = ({ e with _last_update_successful := false }, false)) ∧
    (∀ (e : ZoneEntity) (st : Status), e._is_group = false →
       st.zones.find? (fun z => z.id == e._id) = none →
       AmpliPiZone.async_update e (some st)
         = ({ e with _last_update_successful := false }, false)) ∧
    (∀ (e : ZoneEntity) (st : Status), e._is_group = true →
       st.groups.find? (fun z => z.id == e._id) = none →
       AmpliPiZone.async_update e (some st)
         = ({ e with _last_update_successful := false }, false)) ∧
    (∀ e : StreamEntity,
       AmpliPiStream.async_update e none
         = ({ e with _last_update_successful := false }, false)) ∧
    (∀ (e : StreamEntity) (st : Status),
       st.streams.find? (fun s => s.id == e._id) = none →
       AmpliPiStream.async_update e (some st)
         = ({ e with
               _extra_attributes := .sourceId (e._current_source.map (·.id)),
               _available := AmpliPiStream._update_available e }, true)) := by
  refine ⟨fun e => rfl, ?_, fun e => rfl, ?_, ?_, fun e => rfl, ?_⟩
  · intro e st h
    simp only [AmpliPiSource.async_update, h]
  · intro e st hg h
    simp only [AmpliPiZone.async_update, hg, h]
    simp
  · intro e st hg h
    simp only [AmpliPiZone.async_update, hg, h]
    simp
  · intro e st h
    simp only [AmpliPiStream.async_update, h,
      AmpliPiStream._get_extra_attributes, AmpliPiStream._update_available]

/-- C9 witness: each failure clause instantiated at the sample entities
and the empty snapshot. -/
theorem c9_update_failure_witness :
    AmpliPiSource.async_update sampleSourceEnt none
      = ({ sampleSourceEnt with _last_update_successful := false }, false) ∧
    AmpliPiSource.async_update sampleSourceEnt (some stEmpty)
      = ({ sampleSourceEnt with _last_update_successful := false }, false) ∧
    AmpliPiZone.async_update sampleZoneEnt none
      = ({ sampleZoneEnt with _last_update_successful := false }, false) ∧
    AmpliPiZone.async_update sampleZoneEnt (some stEmpty)
      = ({ sampleZoneEnt with _last_update_successful := false }, false) ∧
    AmpliPiZone.async_update sampleGroupEnt (some stEmpty)
      = ({ sampleGroupEnt with _last_update_successful := false }, false) ∧
    AmpliPiStream.async_update sampleStreamEnt none
      = ({ sampleStreamEnt with _last_update_successful := false }, false) ∧
    AmpliPiStream.async_update sampleStreamEnt (some stEmpty)
      = ({ sampleStreamEnt with
            _extra_attributes :=
              .sourceId (sampleStreamEnt._current_source.map (·.id)),
            _available := AmpliPiStream._update_available sampleStreamEnt },
          true) :=
  ⟨c9_update_failure.1 sampleSourceEnt,
   c9_update_failure.2.1 sampleSourceEnt stEmpty (by decide),
   c9_update_failure.2.2.1 sampleZoneEnt,
   c9_update_failure.2.2.2.1 sampleZoneEnt stEmpty (by decide) (by decide),
   c9_update_failure.2.2.2.2.1 sampleGroupEnt stEmpty (by decide) (by decide),
   c9_update_failure.2.2.2.2.2.1 sampleStreamEnt,
   c9_update_failure.2.2.2.2.2.2 sampleStreamEnt stEmpty (by decide)⟩

/-- C9 counterexample: a stream entity whose identifier is absent from the
snapshot does NOT get its last-update-successful flag cleared - the update
raises (second component true) with the flag still set, refuting the
claim that the only cached-state change on this failure is clearing the
flag. -/
theorem c9_counterexample :
    stC9.streams.find? (fun s => s.id == entC9._id) = none ∧
    (AmpliPiStream.async_update entC9 (some stC9)).1._last_update_successful
      = true ∧
    (AmpliPiStream.async_update entC9 (some stC9)).2 = true := by
  decide

end AmpliPi
